import Mathlib

/-!
# Verification of the buffer-exchange core of `frameworks_native`

Shallow embedding, in Lean 4, of the components that the specification of
this repository describes:

* the `FrameTracker` circular frame-history buffer
  (header `FrameTracker.h`; the implementation file is not part of the
  sources available here, so its operations are modelled from the spec and
  from the header's documentation comments);
* the `BufferQueue` slot state machine behind `IGraphicBufferProducer`
  (header `include/gui/IGraphicBufferProducer.h`; again the implementation
  file `BufferQueue.cpp` is only named by the makefile, so the operations
  are modelled from the spec, with result codes taken from the documented
  contract in the header);
* the `QueueBufferOutput` reply record (fully defined inline in
  `include/gui/IGraphicBufferProducer.h`);
* the `SurfaceControl` facade (`SurfaceControl.cpp`, fully present).

Machine integers are modelled as `Int`/`Nat`; `nsecs_t` is a signed 64-bit
nanosecond timestamp, modelled as `Int` (no arithmetic performed on it here
can overflow 64 bits).
-/

namespace FrameworksNative

/-- `nsecs_t` from `utils/Timers.h`: a signed 64-bit nanosecond count. -/
abbrev nsecs := Int

/-- `INT64_MAX`, the sentinel that `FrameTracker::processFences` stores as a
display time for a fence that has not yet signaled. -/
def INT64_MAX : Int := 9223372036854775807

/-- A fence, per the spec's deferred-value model: either still pending
(never / not yet signaled) or signaled at a definite timestamp. The queue
and tracker never wait on fences; they only store them and query signal
status, so a fence value is fully described by this datum. -/
inductive FenceState where
  | pending
  | signaledAt (t : nsecs)
deriving DecidableEq

namespace FrameTrackerModel

/-- One record of `FrameTracker::mFrameRecords`, from `FrameTracker.h`
lines 80-90: three timestamps defaulting to 0 and two optional fences
(absent = `NULL`). -/
structure FrameRecord where
  desiredPresentTime : nsecs := 0
  frameReadyTime : nsecs := 0
  actualPresentTime : nsecs := 0
  frameReadyFence : Option FenceState := none
  actualPresentFence : Option FenceState := none
deriving DecidableEq

/-- `FrameTracker::NUM_FRAME_RECORDS` (`FrameTracker.h` line 43). -/
def NUM_FRAME_RECORDS : Nat := 128

/-- The `FrameTracker` state: the circular record buffer, the write cursor
`mOffset`, and the outstanding-fence counter `mNumFences`
(`FrameTracker.h` lines 101-115). -/
structure FrameTracker where
  mFrameRecords : List FrameRecord
  mOffset : Nat
  mNumFences : Int
deriving DecidableEq

/-- A freshly constructed tracker: 128 zeroed records, cursor 0, counter 0. -/
def FrameTracker.init : FrameTracker :=
  { mFrameRecords := List.replicate NUM_FRAME_RECORDS {}
    mOffset := 0
    mNumFences := 0 }

/-- The record currently under the write cursor. -/
def FrameTracker.current (ft : FrameTracker) : FrameRecord :=
  ft.mFrameRecords.getD ft.mOffset {}

/-- Replace the record under the write cursor. -/
def FrameTracker.setCurrent (ft : FrameTracker) (r : FrameRecord) : FrameTracker :=
  { ft with mFrameRecords := ft.mFrameRecords.set ft.mOffset r }

/-- `FrameTracker::setDesiredPresentTime`: writes the timestamp into the
current record. -/
def FrameTracker.setDesiredPresentTime (ft : FrameTracker) (t : nsecs) : FrameTracker :=
  ft.setCurrent { ft.current with desiredPresentTime := t }

/-- `FrameTracker::setFrameReadyTime`: writes the timestamp into the
current record. -/
def FrameTracker.setFrameReadyTime (ft : FrameTracker) (t : nsecs) : FrameTracker :=
  ft.setCurrent { ft.current with frameReadyTime := t }

/-- `FrameTracker::setActualPresentTime`: writes the timestamp into the
current record. -/
def FrameTracker.setActualPresentTime (ft : FrameTracker) (t : nsecs) : FrameTracker :=
  ft.setCurrent { ft.current with actualPresentTime := t }

/-- Modelled from the spec: `FrameTracker::setFrameReadyFence` (the
implementation file is absent; only `FrameTracker.h` is in the sources).
Per the spec, attaching a fence to the current record increments the
outstanding-fence counter; per the header comment on `mNumFences`
("incremented each time a fence is added"), the increment is
unconditional. -/
def FrameTracker.setFrameReadyFence (ft : FrameTracker) (f : FenceState) : FrameTracker :=
  { ft.setCurrent { ft.current with frameReadyFence := some f } with
      mNumFences := ft.mNumFences + 1 }

/-- Modelled from the spec: `FrameTracker::setActualPresentFence` (the
implementation file is absent). Attaches a fence to the current record and
unconditionally increments the outstanding-fence counter. -/
def FrameTracker.setActualPresentFence (ft : FrameTracker) (f : FenceState) : FrameTracker :=
  { ft.setCurrent { ft.current with actualPresentFence := some f } with
      mNumFences := ft.mNumFences + 1 }

/-- The number of unresolved fences a single record holds (0, 1 or 2). -/
def FrameRecord.fenceCount (r : FrameRecord) : Int :=
  (if r.frameReadyFence.isSome then 1 else 0) +
    (if r.actualPresentFence.isSome then 1 else 0)

/-- Modelled from the spec: `FrameTracker::advanceFrame` (the
implementation file is absent). Moves the write cursor to the next slot of
the 128-entry circular buffer, wrapping around; the record being
overwritten is reset, and if it still held unresolved fences the
outstanding counter is decremented for each clobbered fence
(`FrameTracker.h` lines 108-115: "decremented ... if advanceFrame clobbers
a fence"). -/
def FrameTracker.advanceFrame (ft : FrameTracker) : FrameTracker :=
  let off := (ft.mOffset + 1) % NUM_FRAME_RECORDS
  let r := ft.mFrameRecords.getD off {}
  { mFrameRecords := ft.mFrameRecords.set off {}
    mOffset := off
    mNumFences := ft.mNumFences - r.fenceCount }

/-- Modelled from the spec: `FrameTracker::clear` (the implementation file
is absent). Resets every record to zero/absent and the outstanding-fence
counter to 0. -/
def FrameTracker.clear (ft : FrameTracker) : FrameTracker :=
  { ft with
      mFrameRecords := List.replicate NUM_FRAME_RECORDS {}
      mNumFences := 0 }

/-- Collapse one (fence, timestamp) pair as `processFences` does: a
signaled fence is replaced by its signal timestamp (fence removed); a
pending fence is kept but the timestamp becomes the `INT64_MAX` "unknown"
sentinel; no fence means no change. -/
def collapseFence : Option FenceState → nsecs → Option FenceState × nsecs
  | none, t => (none, t)
  | some .pending, _ => (some .pending, INT64_MAX)
  | some (.signaledAt s), _ => (none, s)

/-- The effect of `processFences` on one record. -/
def processRecord (r : FrameRecord) : FrameRecord :=
  let rf := collapseFence r.frameReadyFence r.frameReadyTime
  let pf := collapseFence r.actualPresentFence r.actualPresentTime
  { r with
      frameReadyFence := rf.1
      frameReadyTime := rf.2
      actualPresentFence := pf.1
      actualPresentTime := pf.2 }

/-- The number of signaled (collapsible) fences a record currently
holds. -/
def FrameRecord.signaledFences (r : FrameRecord) : Int :=
  (match r.frameReadyFence with
   | some (.signaledAt _) => 1
   | _ => 0) +
  (match r.actualPresentFence with
   | some (.signaledAt _) => 1
   | _ => 0)

/-- The number of signaled (collapsible) fences currently held across a
record list. -/
def signaledCount (l : List FrameRecord) : Int :=
  (l.map FrameRecord.signaledFences).sum

/-- Modelled from the spec: `FrameTracker::processFences` (the
implementation file is absent; modelled from the spec and from the header
comment at `FrameTracker.h` lines 92-99). Every record that holds a fence
is visited: a signaled fence is replaced by its signal timestamp and the
outstanding counter is decremented; an unsignaled fence makes the record's
display time the `INT64_MAX` sentinel. Records holding no fence are left
unchanged. -/
def FrameTracker.processFences (ft : FrameTracker) : FrameTracker :=
  { mFrameRecords := ft.mFrameRecords.map processRecord
    mOffset := ft.mOffset
    mNumFences := ft.mNumFences - signaledCount ft.mFrameRecords }

/-- The total number of unresolved fences held across all records,
counting the two fence fields of a record separately. -/
def FrameTracker.heldFences (ft : FrameTracker) : Int :=
  (ft.mFrameRecords.map FrameRecord.fenceCount).sum

/-- The counter invariant: `mNumFences` equals the number of unresolved
fences actually held. -/
def FrameTracker.counterExact (ft : FrameTracker) : Prop :=
  ft.mNumFences = ft.heldFences

instance (ft : FrameTracker) : Decidable ft.counterExact := by
  unfold FrameTracker.counterExact; infer_instance

/-- The Frame Tracker operations named by the spec. -/
inductive FTOp where
  | setDesiredPresentTime (t : nsecs)
  | setFrameReadyTime (t : nsecs)
  | setFrameReadyFence (f : FenceState)
  | setActualPresentTime (t : nsecs)
  | setActualPresentFence (f : FenceState)
  | advanceFrame
  | clear
  | processFences
deriving DecidableEq

/-- Apply one Frame Tracker operation. -/
def FTOp.apply (ft : FrameTracker) : FTOp → FrameTracker
  | .setDesiredPresentTime t => ft.setDesiredPresentTime t
  | .setFrameReadyTime t => ft.setFrameReadyTime t
  | .setFrameReadyFence f => ft.setFrameReadyFence f
  | .setActualPresentTime t => ft.setActualPresentTime t
  | .setActualPresentFence f => ft.setActualPresentFence f
  | .advanceFrame => ft.advanceFrame
  | .clear => ft.clear
  | .processFences => ft.processFences

/-- Run a sequence of Frame Tracker operations. -/
def runFT (ft : FrameTracker) : List FTOp → FrameTracker
  | [] => ft
  | op :: ops => runFT (op.apply ft) ops

/-- A fence-attach operation is clean if the field it writes does not
already hold an unresolved fence (attaching over a live fence drops that
fence without adjusting the counter, since the increment in `set*Fence` is
unconditional). -/
def FTOp.clean (ft : FrameTracker) : FTOp → Prop
  | .setFrameReadyFence _ => ft.current.frameReadyFence = none
  | .setActualPresentFence _ => ft.current.actualPresentFence = none
  | _ => True

instance (ft : FrameTracker) (op : FTOp) : Decidable (op.clean ft) := by
  cases op <;> (unfold FTOp.clean; infer_instance)

/-- A sequence of operations is clean if every step is, in the state where
it is applied. -/
def cleanSeq (ft : FrameTracker) : List FTOp → Prop
  | [] => True
  | op :: ops => op.clean ft ∧ cleanSeq (op.apply ft) ops

instance (ft : FrameTracker) (ops : List FTOp) : Decidable (cleanSeq ft ops) := by
  induction ops generalizing ft with
  | nil => unfold cleanSeq; infer_instance
  | cons op ops ih =>
      unfold cleanSeq
      have := ih (op.apply ft)
      infer_instance

/-- The spec's 128-times scenario: starting from a cleared tracker, set a
never-signaled frame-ready fence, then `advanceFrame`, 128 times over. -/
def scenario128 : FrameTracker :=
  runFT FrameTracker.init
    (List.replicate NUM_FRAME_RECORDS FTOp.advanceFrame |>.flatMap
      fun op => [FTOp.setFrameReadyFence .pending, op])

/-- Structural well-formedness: the record buffer has its fixed size and
the cursor is in range (true of every state reachable from `init`). -/
def FrameTracker.WF (ft : FrameTracker) : Prop :=
  ft.mFrameRecords.length = NUM_FRAME_RECORDS ∧ ft.mOffset < NUM_FRAME_RECORDS

end FrameTrackerModel

namespace BufferQueueModel

/-- The result codes of `utils/Errors.h` that the spec's error taxonomy
names (§7): `ok` is `NO_ERROR`, `noInit` is `NO_INIT`, `badValue` is
`BAD_VALUE`, `badState` the spec's distinct `BadState` kind, `wouldBlock`
is `WOULD_BLOCK`, `busy` is `-EBUSY`, `noMemory` is `NO_MEMORY`,
`deadObject` is `DEAD_OBJECT`. -/
inductive Status where
  | ok
  | noInit
  | badValue
  | badState
  | wouldBlock
  | busy
  | noMemory
  | deadObject
deriving DecidableEq

/-- Slot ownership states (spec §3). -/
inductive BufferState where
  | FREE
  | DEQUEUED
  | QUEUED
  | ACQUIRED
deriving DecidableEq

/-- The metadata of an allocated graphics buffer that slot reuse compares:
`(width, height, format, usage)`. The pixel storage itself is external. -/
structure BufferSpec where
  width : Nat
  height : Nat
  format : Nat
  usage : Nat
deriving DecidableEq

/-- One slot of the Slot Table (spec §3): ownership state, the cached
buffer (absent if never allocated or invalidated), the travelling fence,
the frame-ordering stamp, and the `requestedBuffer` flag. -/
structure Slot where
  state : BufferState := .FREE
  buffer : Option BufferSpec := none
  fence : Option FenceState := none
  frameNumber : Nat := 0
  requested : Bool := false
deriving DecidableEq

instance : Inhabited Slot := ⟨{}⟩

/-- `BufferQueue::NUM_BUFFER_SLOTS`: the fixed size N of the Slot Table. -/
def NUM_BUFFER_SLOTS : Nat := 32

/-- `QueueBufferOutput` from `include/gui/IGraphicBufferProducer.h` lines
242-271: a packed reply record whose four fields are `uint32_t` values, in
the order width, height, transformHint, numPendingBuffers. Field values
are kept reduced modulo `2^32` by `inflate`. -/
structure QueueBufferOutput where
  width : Nat := 0
  height : Nat := 0
  transformHint : Nat := 0
  numPendingBuffers : Nat := 0
deriving DecidableEq

/-- `QueueBufferOutput::deflate`: reads the four fields back out, in
declaration order. -/
def QueueBufferOutput.deflate (o : QueueBufferOutput) : Nat × Nat × Nat × Nat :=
  (o.width, o.height, o.transformHint, o.numPendingBuffers)

/-- `QueueBufferOutput::inflate`: stores the four values into the four
fields. The parameters are `uint32_t`, which the embedding renders as
reduction modulo `2^32`. -/
def QueueBufferOutput.inflate (_o : QueueBufferOutput)
    (inWidth inHeight inTransformHint inNumPendingBuffers : Nat) : QueueBufferOutput :=
  { width := inWidth % 2 ^ 32
    height := inHeight % 2 ^ 32
    transformHint := inTransformHint % 2 ^ 32
    numPendingBuffers := inNumPendingBuffers % 2 ^ 32 }

/-- All four fields of a `QueueBufferOutput` are 32-bit values. -/
def QueueBufferOutput.wf32 (o : QueueBufferOutput) : Prop :=
  o.width < 2 ^ 32 ∧ o.height < 2 ^ 32 ∧ o.transformHint < 2 ^ 32 ∧
    o.numPendingBuffers < 2 ^ 32

instance (o : QueueBufferOutput) : Decidable o.wf32 := by
  unfold QueueBufferOutput.wf32; infer_instance

/-- The producer APIs `NATIVE_WINDOW_API_*` from `<window.h>` that
`connect`/`disconnect` recognize: EGL = 1, CPU = 2, MEDIA = 3,
CAMERA = 4. -/
def validProducerApi (api : Int) : Bool :=
  api == 1 || api == 2 || api == 3 || api == 4

/-- The Buffer Queue state (spec §3): the Slot Table plus connection,
capacity-negotiation and abandonment state. `minUndequeuedBuffers` and
`mDefaultMaxBufferCount` are fixed at construction in this model (the
consumer-side calls that change them are outside the producer contract
under verification). -/
structure BufferQueue where
  slots : List Slot
  mConnectedApi : Option Int := none
  mAbandoned : Bool := false
  mConsumerConnected : Bool := false
  producerControlledByApp : Bool := false
  consumerControlledByApp : Bool := false
  mOverrideMaxBufferCount : Nat := 0
  mDefaultMaxBufferCount : Nat := 2
  minUndequeuedBuffers : Nat := 1
  mDefaultWidth : Nat := 1
  mDefaultHeight : Nat := 1
  mDefaultFormat : Nat := 1
  mTransformHint : Nat := 0
  mFrameCounter : Nat := 0
deriving DecidableEq

/-- A freshly constructed queue: all slots `FREE` and unallocated, no
consumer ever attached, no producer API connected. -/
def BufferQueue.init : BufferQueue :=
  { slots := List.replicate NUM_BUFFER_SLOTS {} }

/-- The number of slots currently in the `QUEUED` state (the pending
count reported by a `QueueBufferOutput`). -/
def BufferQueue.pendingBufferCount (q : BufferQueue) : Nat :=
  (q.slots.filter fun s => s.state == .QUEUED).length

/-- The reply record carrying the current defaults (filled on `connect`
and `queueBuffer`). -/
def BufferQueue.currentOutput (q : BufferQueue) : QueueBufferOutput :=
  QueueBufferOutput.inflate {} q.mDefaultWidth q.mDefaultHeight q.mTransformHint
    q.pendingBufferCount

/-- Modelled from the spec: `BufferQueue::connect` (the implementation
file `BufferQueue.cpp` is named by the makefile but absent from the
sources; result codes follow the documented contract at
`include/gui/IGraphicBufferProducer.h` lines 315-326). Fails with
`NO_INIT` if the queue is abandoned or no consumer has ever attached;
fails with `BAD_VALUE` if the api is out of range or a producer is
already connected; on success records the connected API and the
producer's `controlledByApp` flag and returns the current defaults.
Death-notification registration is external and not modelled. -/
def BufferQueue.connect (q : BufferQueue) (api : Int) (controlledByApp : Bool) :
    Status × Option QueueBufferOutput × BufferQueue :=
  if q.mAbandoned then (.noInit, none, q)
  else if !q.mConsumerConnected then (.noInit, none, q)
  else if !validProducerApi api then (.badValue, none, q)
  else if q.mConnectedApi.isSome then (.badValue, none, q)
  else (.ok, some q.currentOutput,
    { q with mConnectedApi := some api, producerControlledByApp := controlledByApp })

/-- Force a slot abandoned in flight back to `FREE`, discarding its work. -/
def Slot.forceFree (s : Slot) : Slot :=
  if s.state = .DEQUEUED then { s with state := .FREE, requested := false } else s

/-- Modelled from the spec: `BufferQueue::disconnect` (implementation
absent; result codes follow the documented contract at
`include/gui/IGraphicBufferProducer.h` lines 344-348). A no-op success on
an abandoned queue; `BAD_VALUE` if the api is out of range or does not
match the connected one; otherwise clears the connected API and forces
every `DEQUEUED` slot back to `FREE`. The broadcast wake-up of blocked
callers is observable here through `dequeueBuffer`, which never reports
`blocked` once no producer is connected. -/
def BufferQueue.disconnect (q : BufferQueue) (api : Int) : Status × BufferQueue :=
  if q.mAbandoned then (.ok, q)
  else if !validProducerApi api then (.badValue, q)
  else if q.mConnectedApi ≠ some api then (.badValue, q)
  else (.ok, { q with
    mConnectedApi := none
    slots := q.slots.map Slot.forceFree })

/-- Empty a slot entirely: `FREE`, no cached buffer, no fence (the effect
`freeAllBuffers` has on each slot when the table is globally reset). -/
def Slot.emptied (_s : Slot) : Slot := {}

/-- Whether some slot is currently `DEQUEUED`. -/
def BufferQueue.hasDequeuedSlot (q : BufferQueue) : Bool :=
  q.slots.any fun s => s.state == .DEQUEUED

/-- Modelled from the spec: `BufferQueue::setBufferCount` (implementation
absent; contract at `include/gui/IGraphicBufferProducer.h` lines 80-100).
`NO_INIT` on an abandoned queue; `BAD_VALUE` if any slot is `DEQUEUED` or
if a nonzero count lies outside `(minUndequeuedBuffers, NUM_BUFFER_SLOTS]`;
count 0 is the valid "unset" sentinel. On success the override is
recorded (or reset, for 0) and every slot's cached buffer is emptied,
forcing reallocation on the next dequeue. -/
def BufferQueue.setBufferCount (q : BufferQueue) (bufferCount : Int) : Status × BufferQueue :=
  if q.mAbandoned then (.noInit, q)
  else if bufferCount > (NUM_BUFFER_SLOTS : Int) then (.badValue, q)
  else if q.hasDequeuedSlot then (.badValue, q)
  else if bufferCount = 0 then
    (.ok, { q with mOverrideMaxBufferCount := 0, slots := q.slots.map Slot.emptied })
  else if bufferCount ≤ (q.minUndequeuedBuffers : Int) then (.badValue, q)
  else
    (.ok, { q with mOverrideMaxBufferCount := bufferCount.toNat
                   slots := q.slots.map Slot.emptied })

/-- The slot-count cap dequeue searches under: the producer override if
set, else the default, plus the one reserved extra slot in async mode,
never exceeding the table size. -/
def BufferQueue.effectiveMaxBufferCount (q : BufferQueue) (async : Bool) : Nat :=
  Nat.min
    ((if q.mOverrideMaxBufferCount ≠ 0 then q.mOverrideMaxBufferCount
      else q.mDefaultMaxBufferCount) + (if async then 1 else 0))
    NUM_BUFFER_SLOTS

/-- Index of the first `FREE` slot below `bound` whose cached buffer
already matches the requested metadata, if any. -/
def findFreeMatching (slots : List Slot) (bound : Nat) (want : BufferSpec) : Option Nat :=
  (List.range bound).find? fun i =>
    (slots.getD i default).state == .FREE && (slots.getD i default).buffer == some want

/-- Index of the first `FREE` slot below `bound`, if any. -/
def findFreeAny (slots : List Slot) (bound : Nat) : Option Nat :=
  (List.range bound).find? fun i => (slots.getD i default).state == .FREE

/-- The slot `dequeueBuffer` picks below `bound`: a `FREE` slot whose
cached buffer matches the request when one exists (avoiding
reallocation), else any `FREE` slot. -/
def pickFreeSlot (slots : List Slot) (bound : Nat) (want : BufferSpec) : Option Nat :=
  match findFreeMatching slots bound want with
  | some i => some i
  | none => findFreeAny slots bound

/-- The number of slots currently `DEQUEUED`. -/
def BufferQueue.dequeuedCount (q : BufferQueue) : Nat :=
  (q.slots.filter fun s => s.state == .DEQUEUED).length

/-- Validation gate of `dequeueBuffer`: async mode under a buffer-count
override too small to cover the reserved extra async slot (spec: "a
buffer count was set and this would exceed one outstanding async
dequeue"). -/
def BufferQueue.asyncOverrideGate (q : BufferQueue) (async : Bool) : Bool :=
  async && decide (q.mOverrideMaxBufferCount ≠ 0) &&
    decide (q.mOverrideMaxBufferCount < q.minUndequeuedBuffers + 2)

/-- Validation gate of `dequeueBuffer`: a dequeued buffer already
outstanding without a prior `setBufferCount` (spec: "too many concurrent
dequeues are already outstanding without a prior `setBufferCount`",
reported as `-EBUSY`). -/
def BufferQueue.busyGate (q : BufferQueue) : Bool :=
  decide (q.mOverrideMaxBufferCount = 0) && decide (1 ≤ q.dequeuedCount)

/-- The one-step outcome of a `dequeueBuffer` call. `blocked` means the
call would put the calling thread to sleep awaiting a `FREE` slot (the
caller re-runs the operation after a wake). -/
inductive DequeueOutcome where
  | success (slot : Nat) (needsRealloc : Bool) (fence : Option FenceState)
  | blocked
  | failure (s : Status)
deriving DecidableEq

/-- Modelled from the spec: `BufferQueue::dequeueBuffer` (implementation
absent; contract at `include/gui/IGraphicBufferProducer.h` lines 102-166
and spec section 4.2). Zero width and height select the stored defaults.
Validation gates, in order: `NO_INIT` once abandoned, or once no producer
is connected (disconnection wakes waiters with an abandonment-equivalent
result, spec section 5); `BAD_VALUE` when async mode is requested under a
buffer-count override too small for the reserved extra async slot;
`-EBUSY` when a dequeued buffer is already outstanding without a prior
`setBufferCount`. Then the table is searched below the effective cap for
a `FREE` slot, preferring one whose cached buffer matches the request; if
none exists the call blocks, except that it fails with `WOULD_BLOCK`
instead when both producer and consumer are controlled by the app. A
successful dequeue flags reallocation when the chosen slot's cached
buffer does not match, and hands the slot's travelling fence to the
caller. Allocation failure (`NO_MEMORY`) is the external allocator's and
is not modelled. -/
def BufferQueue.dequeueBuffer (q : BufferQueue) (async : Bool)
    (w h format usage : Nat) : DequeueOutcome × BufferQueue :=
  if q.mAbandoned then (.failure .noInit, q)
  else if q.mConnectedApi.isNone then (.failure .noInit, q)
  else
    let w0 := w
    let w := if w = 0 && h = 0 then q.mDefaultWidth else w
    let h := if w0 = 0 && h = 0 then q.mDefaultHeight else h
    let format := if format = 0 then q.mDefaultFormat else format
    if q.asyncOverrideGate async then (.failure .badValue, q)
    else if q.busyGate then (.failure .busy, q)
    else
      let bound := q.effectiveMaxBufferCount async
      let want : BufferSpec := ⟨w, h, format, usage⟩
      match pickFreeSlot q.slots bound want with
      | some i =>
          let s := q.slots.getD i default
          let needsRealloc := s.buffer ≠ some want
          let s' : Slot :=
            { s with state := .DEQUEUED, fence := none, requested := false,
                     buffer := some want }
          (.success i needsRealloc s.fence, { q with slots := q.slots.set i s' })
      | none =>
          if q.producerControlledByApp && q.consumerControlledByApp then
            (.failure .wouldBlock, q)
          else (.blocked, q)

/-- Modelled from the spec: `BufferQueue::requestBuffer` (implementation
absent; contract at `include/gui/IGraphicBufferProducer.h` lines 65-78).
`NO_INIT` once abandoned; `BAD_VALUE` for an out-of-range slot or one not
currently `DEQUEUED`; otherwise returns the authoritative buffer handle
and marks the slot requested. -/
def BufferQueue.requestBuffer (q : BufferQueue) (slot : Nat) :
    Status × Option BufferSpec × BufferQueue :=
  if q.mAbandoned then (.noInit, none, q)
  else if slot ≥ NUM_BUFFER_SLOTS then (.badValue, none, q)
  else
    let s := q.slots.getD slot default
    if s.state ≠ .DEQUEUED then (.badValue, none, q)
    else (.ok, s.buffer,
      { q with slots := q.slots.set slot { s with requested := true } })

/-- Modelled from the spec: `BufferQueue::queueBuffer` (implementation
absent; contract at `include/gui/IGraphicBufferProducer.h` lines 168-195).
`NO_INIT` once abandoned; `BAD_VALUE` for a slot out of range, not
`DEQUEUED`, or enqueued without a prior `requestBuffer`. On success the
frame counter advances, the slot is stamped with the new strictly larger
frame number, the producer fence is attached, and the slot becomes
`QUEUED`. The crop and scaling-mode argument checks concern geometry
outside this model. -/
def BufferQueue.queueBuffer (q : BufferQueue) (slot : Nat) (fence : FenceState) :
    Status × Option QueueBufferOutput × BufferQueue :=
  if q.mAbandoned then (.noInit, none, q)
  else if slot ≥ NUM_BUFFER_SLOTS then (.badValue, none, q)
  else
    let s := q.slots.getD slot default
    if s.state ≠ .DEQUEUED then (.badValue, none, q)
    else if !s.requested then (.badValue, none, q)
    else
      let q' : BufferQueue :=
        { q with
            mFrameCounter := q.mFrameCounter + 1
            slots := q.slots.set slot
              { s with state := .QUEUED
                       fence := some fence
                       frameNumber := q.mFrameCounter + 1 } }
      (.ok, some q'.currentOutput, q')

/-- Modelled from the spec: `BufferQueue::cancelBuffer` (implementation
absent; contract at `include/gui/IGraphicBufferProducer.h` lines 276-284).
Returns a `DEQUEUED` slot to `FREE` without publishing it, attaching the
fence the next owner must wait on. -/
def BufferQueue.cancelBuffer (q : BufferQueue) (slot : Nat) (fence : FenceState) :
    Status × BufferQueue :=
  if q.mAbandoned then (.noInit, q)
  else if slot ≥ NUM_BUFFER_SLOTS then (.badValue, q)
  else
    let s := q.slots.getD slot default
    if s.state ≠ .DEQUEUED then (.badValue, q)
    else
      let s' : Slot := { s with state := .FREE, fence := some fence, requested := false }
      (.ok, { q with slots := q.slots.set slot s' })

/-- The oldest `QUEUED` slot: index and frame number of the queued slot
with the minimal frame stamp, scanning from index `i`. -/
def oldestQueuedAux : List Slot → Nat → Option (Nat × Nat)
  | [], _ => none
  | s :: rest, i =>
      let tail := oldestQueuedAux rest (i + 1)
      if s.state = .QUEUED then
        match tail with
        | none => some (i, s.frameNumber)
        | some (j, f) =>
            if f < s.frameNumber then some (j, f) else some (i, s.frameNumber)
      else tail

/-- The oldest `QUEUED` slot of the table, by frame stamp (FIFO order). -/
def oldestQueued (slots : List Slot) : Option (Nat × Nat) :=
  oldestQueuedAux slots 0

/-- Modelled from the spec: the consumer-side `acquireBuffer`
(spec section 4.3; the Buffer Queue implementation is absent). Selects
the oldest `QUEUED` slot by frame number — never reordering, regardless
of fence signal state — marks it `ACQUIRED`, and hands its index, frame
number and fence to the consumer. No slot is `QUEUED` (or the queue is
abandoned): no acquisition. -/
def BufferQueue.acquireBuffer (q : BufferQueue) :
    Option (Nat × Nat × Option FenceState × BufferQueue) :=
  if q.mAbandoned then none
  else
    match oldestQueued q.slots with
    | none => none
    | some (i, f) =>
        let s := q.slots.getD i default
        some (i, f, s.fence,
          { q with slots := q.slots.set i { s with state := .ACQUIRED, fence := none } })

/-- Modelled from the spec: the consumer-side `releaseBuffer`
(spec section 4.3). Transitions an `ACQUIRED` slot back to `FREE`,
attaching the consumer-side fence the next producer dequeue must honor. -/
def BufferQueue.releaseBuffer (q : BufferQueue) (slot : Nat) (fence : FenceState) :
    Status × BufferQueue :=
  if slot ≥ NUM_BUFFER_SLOTS then (.badValue, q)
  else
    let s := q.slots.getD slot default
    if s.state ≠ .ACQUIRED then (.badValue, q)
    else
      let s' : Slot := { s with state := .FREE, fence := some fence }
      (.ok, { q with slots := q.slots.set slot s' })

/-- Modelled from the spec: consumer attachment (spec section 4.2 requires
"a consumer must be already connected" before `connect` succeeds). -/
def BufferQueue.consumerConnect (q : BufferQueue) (controlledByApp : Bool) : BufferQueue :=
  { q with mConsumerConnected := true, consumerControlledByApp := controlledByApp }

/-- Modelled from the spec: abandonment, the terminal state entered when
the consumer side goes away for good (spec glossary); monotonic, never
cleared. -/
def BufferQueue.abandon (q : BufferQueue) : BufferQueue :=
  { q with mAbandoned := true }

/-- The producer and consumer operations of the Buffer Queue, as a trace
alphabet. -/
inductive BQOp where
  | consumerConnect (controlledByApp : Bool)
  | abandon
  | connect (api : Int) (controlledByApp : Bool)
  | disconnect (api : Int)
  | setBufferCount (n : Int)
  | dequeueBuffer (async : Bool) (w h format usage : Nat)
  | requestBuffer (slot : Nat)
  | queueBuffer (slot : Nat) (fence : FenceState)
  | cancelBuffer (slot : Nat) (fence : FenceState)
  | acquireBuffer
  | releaseBuffer (slot : Nat) (fence : FenceState)

/-- The state reached after one operation (results are dropped; a failed
operation leaves the state unchanged by construction of each operation). -/
def BQOp.apply (q : BufferQueue) : BQOp → BufferQueue
  | .consumerConnect c => q.consumerConnect c
  | .abandon => q.abandon
  | .connect api c => (q.connect api c).2.2
  | .disconnect api => (q.disconnect api).2
  | .setBufferCount n => (q.setBufferCount n).2
  | .dequeueBuffer a w h f u => (q.dequeueBuffer a w h f u).2
  | .requestBuffer s => (q.requestBuffer s).2.2
  | .queueBuffer s f => (q.queueBuffer s f).2.2
  | .cancelBuffer s f => (q.cancelBuffer s f).2
  | .acquireBuffer =>
      match q.acquireBuffer with
      | some r => r.2.2.2
      | none => q
  | .releaseBuffer s f => (q.releaseBuffer s f).2

/-- Run a trace of Buffer Queue operations. -/
def runBQ (q : BufferQueue) : List BQOp → BufferQueue
  | [] => q
  | op :: ops => runBQ (op.apply q) ops

/-- Every `QUEUED` slot carries a frame stamp at least `f` (the ordering
fact `acquireBuffer` maintains: nothing older than the last acquisition
is ever pending). -/
def BufferQueue.queuedGE (q : BufferQueue) (f : Nat) : Prop :=
  ∀ s ∈ q.slots, s.state = .QUEUED → f ≤ s.frameNumber

/-- Frame stamps of `QUEUED` slots never exceed the frame counter (true
in every reachable state; fresh stamps come from the counter). -/
def BufferQueue.Inv (q : BufferQueue) : Prop :=
  ∀ s ∈ q.slots, s.state = .QUEUED → s.frameNumber ≤ q.mFrameCounter

/-- A queue with a producer connected (api 1), reached by an explicit
trace. -/
def qConnected : BufferQueue :=
  runBQ BufferQueue.init [.consumerConnect false, .connect 1 false]

/-- An abandoned queue still holding a `DEQUEUED` slot: the producer
dequeued a buffer and then the consumer side went away. -/
def qAbandonedDequeued : BufferQueue :=
  runBQ BufferQueue.init
    [.consumerConnect false, .connect 1 false, .dequeueBuffer false 64 64 1 0, .abandon]

/-- A queue whose two in-cap slots are both `QUEUED` (no `FREE` slot
below the effective cap, no dequeued buffer outstanding, gates clear). -/
def qBothQueued : BufferQueue :=
  runBQ BufferQueue.init
    [.consumerConnect false, .connect 1 false, .dequeueBuffer false 64 64 1 0,
      .requestBuffer 0, .queueBuffer 0 (.signaledAt 5), .dequeueBuffer false 64 64 1 0,
      .requestBuffer 1, .queueBuffer 1 .pending]

/-- A queue with no `FREE` slot below the effective cap and one dequeued
buffer outstanding without a `setBufferCount`: slot 0 is `QUEUED`, slot 1
is `DEQUEUED`, and the default cap is 2. -/
def qBusyState : BufferQueue :=
  runBQ BufferQueue.init
    [.consumerConnect false, .connect 1 false, .dequeueBuffer false 64 64 1 0,
      .requestBuffer 0, .queueBuffer 0 (.signaledAt 5), .dequeueBuffer false 64 64 1 0]

/-- Producer trace for the FIFO scenario: connect, dequeue slot 0,
request it, queue it with a signaled fence (frame 1). -/
def opsA : List BQOp :=
  [.consumerConnect false, .connect 1 false, .dequeueBuffer false 64 64 1 0,
    .requestBuffer 0, .queueBuffer 0 (.signaledAt 5)]

/-- The first acquisition of the FIFO scenario. -/
def acq1 : Option (Nat × Nat × Option FenceState × BufferQueue) :=
  (runBQ BufferQueue.init opsA).acquireBuffer

/-- The queue state after the first acquisition. -/
def q1c : BufferQueue :=
  match acq1 with
  | some r => r.2.2.2
  | none => BufferQueue.init

/-- Trace between the two acquisitions: dequeue slot 1, request it, queue
it with a pending fence (frame 2). -/
def opsB : List BQOp :=
  [.dequeueBuffer false 64 64 1 0, .requestBuffer 1, .queueBuffer 1 .pending]

/-- The second acquisition of the FIFO scenario. -/
def acq2 : Option (Nat × Nat × Option FenceState × BufferQueue) :=
  (runBQ q1c opsB).acquireBuffer

/-- The queue state after the second acquisition. -/
def q2c : BufferQueue :=
  match acq2 with
  | some r => r.2.2.2
  | none => BufferQueue.init

end BufferQueueModel

namespace SurfaceControlModel

/-- `NO_ERROR` from `utils/Errors.h`. -/
def NO_ERROR : Int := 0

/-- `NO_INIT` from `utils/Errors.h` (`-ENODEV`). -/
def NO_INIT : Int := -19

/-- An uninterpreted `Region` argument (only forwarded, never inspected). -/
structure RegionArg where
  payload : Nat
deriving DecidableEq

/-- An uninterpreted `Rect` argument (only forwarded, never inspected). -/
structure RectArg where
  payload : Nat
deriving DecidableEq

/-- An uninterpreted `float` argument: `SurfaceControl` only forwards
float parameters, never computes with them, so the bit pattern is an
adequate carrier. -/
structure FloatArg where
  bits : Nat
deriving DecidableEq

/-- The calls `SurfaceControl` can forward to its
`SurfaceComposerClient` (`SurfaceControl.cpp` lines 274-339); `show` is a
Lean keyword, rendered `showSurface`. Each carries the arguments the
source forwards alongside the surface handle. -/
inductive SCRequest where
  | setLayerStack (layerStack : Int)
  | setLayer (layer : Int)
  | setPosition (x y : Int)
  | setSize (w h : Nat)
  | hide
  | showSurface
  | setFlags (flags mask : Nat)
  | setTransparentRegionHint (transparent : RegionArg)
  | setAlpha (alpha : FloatArg)
  | setMatrix (dsdx dtdx dsdy dtdy : FloatArg)
  | setCrop (crop : RectArg)

/-- The client as a response oracle: the status each forwarded call
returns. -/
def SCClient := SCRequest → Int

/-- The `SurfaceControl` state: the strong references `mClient` and
`mSurface` (`none` models a cleared `sp<>`, as after `destroy`). The
surface binder handle is carried as an opaque number. -/
structure SurfaceControl where
  mClient : Option SCClient
  mSurface : Option Nat

/-- `SurfaceControl::validate` (`SurfaceControl.cpp` lines 341-349):
`NO_INIT` when the surface or client reference is null, else
`NO_ERROR`. -/
def SurfaceControl.validate (sc : SurfaceControl) : Int :=
  if sc.mSurface.isNone || sc.mClient.isNone then NO_INIT else NO_ERROR

/-- Forward one call to the client, recording it in the call trace; the
second component lists the calls made to the client. -/
def SurfaceControl.clientCall (sc : SurfaceControl) (req : SCRequest) : Int × List SCRequest :=
  match sc.mClient with
  | some client => (client req, [req])
  | none => (NO_INIT, [])

/-- Every state-changing `SurfaceControl` operation (`SurfaceControl.cpp`
lines 274-339) shares one body: validate, and on failure return the error
having made no client call; otherwise forward exactly one call and return
its result. `dispatch` is that shared body, applied to the request each
of the eleven methods builds. -/
def SurfaceControl.dispatch (sc : SurfaceControl) (req : SCRequest) : Int × List SCRequest :=
  let err := sc.validate
  if err < 0 then (err, [])
  else sc.clientCall req

/-- `SurfaceControl::setLayerStack`. -/
def SurfaceControl.setLayerStack (sc : SurfaceControl) (layerStack : Int) : Int × List SCRequest :=
  sc.dispatch (.setLayerStack layerStack)

/-- `SurfaceControl::setLayer`. -/
def SurfaceControl.setLayer (sc : SurfaceControl) (layer : Int) : Int × List SCRequest :=
  sc.dispatch (.setLayer layer)

/-- `SurfaceControl::setPosition`. -/
def SurfaceControl.setPosition (sc : SurfaceControl) (x y : Int) : Int × List SCRequest :=
  sc.dispatch (.setPosition x y)

/-- `SurfaceControl::setSize`. -/
def SurfaceControl.setSize (sc : SurfaceControl) (w h : Nat) : Int × List SCRequest :=
  sc.dispatch (.setSize w h)

/-- `SurfaceControl::hide`. -/
def SurfaceControl.hide (sc : SurfaceControl) : Int × List SCRequest :=
  sc.dispatch .hide

/-- `SurfaceControl::show` (named `showSurface`: `show` is a Lean
keyword). -/
def SurfaceControl.showSurface (sc : SurfaceControl) : Int × List SCRequest :=
  sc.dispatch .showSurface

/-- `SurfaceControl::setFlags`. -/
def SurfaceControl.setFlags (sc : SurfaceControl) (flags mask : Nat) : Int × List SCRequest :=
  sc.dispatch (.setFlags flags mask)

/-- `SurfaceControl::setTransparentRegionHint`. -/
def SurfaceControl.setTransparentRegionHint (sc : SurfaceControl) (transparent : RegionArg) :
    Int × List SCRequest :=
  sc.dispatch (.setTransparentRegionHint transparent)

/-- `SurfaceControl::setAlpha`. -/
def SurfaceControl.setAlpha (sc : SurfaceControl) (alpha : FloatArg) : Int × List SCRequest :=
  sc.dispatch (.setAlpha alpha)

/-- `SurfaceControl::setMatrix`. -/
def SurfaceControl.setMatrix (sc : SurfaceControl) (dsdx dtdx dsdy dtdy : FloatArg) :
    Int × List SCRequest :=
  sc.dispatch (.setMatrix dsdx dtdx dsdy dtdy)

/-- `SurfaceControl::setCrop`. -/
def SurfaceControl.setCrop (sc : SurfaceControl) (crop : RectArg) : Int × List SCRequest :=
  sc.dispatch (.setCrop crop)

/-- `SurfaceControl::destroy` (`SurfaceControl.cpp` lines 242-253): after
the optional `destroySurface` IPC, clears both strong references, so
every later operation fails `validate`. `clear()` simply calls
`destroy()`. -/
def SurfaceControl.destroy (_sc : SurfaceControl) : SurfaceControl :=
  { mClient := none, mSurface := none }

/-- Apply the method the request names (ties the eleven wrappers to the
request alphabet for a single quantified statement). -/
def SurfaceControl.run (sc : SurfaceControl) : SCRequest → Int × List SCRequest
  | .setLayerStack x => sc.setLayerStack x
  | .setLayer x => sc.setLayer x
  | .setPosition x y => sc.setPosition x y
  | .setSize w h => sc.setSize w h
  | .hide => sc.hide
  | .showSurface => sc.showSurface
  | .setFlags f m => sc.setFlags f m
  | .setTransparentRegionHint t => sc.setTransparentRegionHint t
  | .setAlpha a => sc.setAlpha a
  | .setMatrix a b c d => sc.setMatrix a b c d
  | .setCrop c => sc.setCrop c

end SurfaceControlModel

/-! ## Frame Tracker theorems -/

namespace FrameTrackerModel

theorem sum_map_set {α : Type} (f : α → Int) (d : α) :
    ∀ (l : List α) (i : Nat) (r : α), i < l.length →
      ((l.set i r).map f).sum = (l.map f).sum + f r - f (l.getD i d)
  | [], i, r, h => by simp at h
  | a :: l, 0, r, _ => by
      rw [List.set_cons_zero, List.map_cons, List.sum_cons, List.map_cons, List.sum_cons,
        List.getD_cons_zero]
      ring
  | a :: l, i + 1, r, h => by
      have ih := sum_map_set f d l i r (by simpa using h)
      rw [List.set_cons_succ, List.map_cons, List.sum_cons, List.map_cons, List.sum_cons,
        List.getD_cons_succ, ih]
      ring

theorem sum_map_sub {α : Type} (f g : α → Int) (l : List α) :
    (l.map fun x => f x - g x).sum = (l.map f).sum - (l.map g).sum := by
  induction l with
  | nil => simp
  | cons a l ih => simp [ih]; ring

theorem fenceCount_processRecord (r : FrameRecord) :
    (processRecord r).fenceCount = r.fenceCount - r.signaledFences := by
  obtain ⟨d, rt, pt, rf, pa⟩ := r
  rcases rf with _ | (_ | t) <;> rcases pa with _ | (_ | u) <;>
    simp [processRecord, collapseFence, FrameRecord.fenceCount, FrameRecord.signaledFences]

theorem processRecord_processRecord (r : FrameRecord) :
    processRecord (processRecord r) = processRecord r := by
  obtain ⟨d, rt, pt, rf, pa⟩ := r
  rcases rf with _ | (_ | t) <;> rcases pa with _ | (_ | u) <;>
    simp [processRecord, collapseFence]

theorem signaledFences_processRecord (r : FrameRecord) :
    (processRecord r).signaledFences = 0 := by
  obtain ⟨d, rt, pt, rf, pa⟩ := r
  rcases rf with _ | (_ | t) <;> rcases pa with _ | (_ | u) <;>
    simp [processRecord, collapseFence, FrameRecord.signaledFences]

theorem signaledCount_processFences (l : List FrameRecord) :
    signaledCount (l.map processRecord) = 0 := by
  unfold signaledCount
  rw [List.map_map]
  apply List.sum_eq_zero
  intro x hx
  obtain ⟨r, _, rfl⟩ := List.mem_map.mp hx
  exact signaledFences_processRecord r

/-- C8. `processFences` is idempotent: with no intervening operation and
no change in which fences have signaled (fences are immutable values of
the embedding, so this is automatic), a second call leaves the tracker
state — and hence any reported history — exactly as the first left it. -/
theorem processFences_idempotent (ft : FrameTracker) :
    ft.processFences.processFences = ft.processFences := by
  obtain ⟨l, off, n⟩ := ft
  show FrameTracker.mk ((l.map processRecord).map processRecord) off
      ((n - signaledCount l) - signaledCount (l.map processRecord)) =
    FrameTracker.mk (l.map processRecord) off (n - signaledCount l)
  have hmap : List.map (processRecord ∘ processRecord) l = List.map processRecord l :=
    List.map_congr_left fun r _ => processRecord_processRecord r
  rw [List.map_map, hmap, signaledCount_processFences, sub_zero]

theorem heldFences_set (ft : FrameTracker) (r : FrameRecord) (hwf : ft.WF) :
    (ft.setCurrent r).heldFences =
      ft.heldFences + r.fenceCount - ft.current.fenceCount := by
  unfold FrameTracker.setCurrent FrameTracker.heldFences FrameTracker.current
  exact sum_map_set _ _ _ _ _ (by rw [hwf.1]; exact hwf.2)

theorem WF_apply (ft : FrameTracker) (op : FTOp) (hwf : ft.WF) : (op.apply ft).WF := by
  obtain ⟨hlen, hoff⟩ := hwf
  have hmod : (ft.mOffset + 1) % NUM_FRAME_RECORDS < NUM_FRAME_RECORDS :=
    Nat.mod_lt _ (by decide)
  cases op with
  | setDesiredPresentTime t =>
      exact ⟨by simpa [FTOp.apply, FrameTracker.setDesiredPresentTime,
        FrameTracker.setCurrent] using hlen, hoff⟩
  | setFrameReadyTime t =>
      exact ⟨by simpa [FTOp.apply, FrameTracker.setFrameReadyTime,
        FrameTracker.setCurrent] using hlen, hoff⟩
  | setFrameReadyFence f =>
      exact ⟨by simpa [FTOp.apply, FrameTracker.setFrameReadyFence,
        FrameTracker.setCurrent] using hlen, hoff⟩
  | setActualPresentTime t =>
      exact ⟨by simpa [FTOp.apply, FrameTracker.setActualPresentTime,
        FrameTracker.setCurrent] using hlen, hoff⟩
  | setActualPresentFence f =>
      exact ⟨by simpa [FTOp.apply, FrameTracker.setActualPresentFence,
        FrameTracker.setCurrent] using hlen, hoff⟩
  | advanceFrame =>
      exact ⟨by simpa [FTOp.apply, FrameTracker.advanceFrame] using hlen, hmod⟩
  | clear =>
      exact ⟨by simp [FTOp.apply, FrameTracker.clear], hoff⟩
  | processFences =>
      exact ⟨by simpa [FTOp.apply, FrameTracker.processFences] using hlen, hoff⟩

theorem heldFences_clear (ft : FrameTracker) : ft.clear.heldFences = 0 := by
  unfold FrameTracker.clear FrameTracker.heldFences
  apply List.sum_eq_zero
  intro x hx
  obtain ⟨r, hr, rfl⟩ := List.mem_map.mp hx
  rw [List.eq_of_mem_replicate hr]
  rfl

theorem heldFences_processFences (ft : FrameTracker) :
    ft.processFences.heldFences = ft.heldFences - signaledCount ft.mFrameRecords := by
  unfold FrameTracker.processFences FrameTracker.heldFences signaledCount
  simp only [List.map_map]
  rw [show FrameRecord.fenceCount ∘ processRecord = fun r =>
      r.fenceCount - r.signaledFences from funext fun r => fenceCount_processRecord r]
  exact sum_map_sub _ _ _

theorem counterExact_apply (ft : FrameTracker) (op : FTOp) (hwf : ft.WF)
    (hclean : op.clean ft) (hce : ft.counterExact) : (op.apply ft).counterExact := by
  unfold FrameTracker.counterExact at hce ⊢
  cases op with
  | setDesiredPresentTime t =>
      have h : (ft.setCurrent { ft.current with desiredPresentTime := t }).heldFences =
          ft.heldFences + FrameRecord.fenceCount { ft.current with desiredPresentTime := t } -
            ft.current.fenceCount := heldFences_set ft _ hwf
      have hfc : FrameRecord.fenceCount { ft.current with desiredPresentTime := t } =
          ft.current.fenceCount := rfl
      show ft.mNumFences = _
      rw [show (FTOp.apply ft (.setDesiredPresentTime t)).heldFences =
        (ft.setCurrent { ft.current with desiredPresentTime := t }).heldFences from rfl, h, hfc]
      omega
  | setFrameReadyTime t =>
      have h : (ft.setCurrent { ft.current with frameReadyTime := t }).heldFences =
          ft.heldFences + FrameRecord.fenceCount { ft.current with frameReadyTime := t } -
            ft.current.fenceCount := heldFences_set ft _ hwf
      have hfc : FrameRecord.fenceCount { ft.current with frameReadyTime := t } =
          ft.current.fenceCount := rfl
      show ft.mNumFences = _
      rw [show (FTOp.apply ft (.setFrameReadyTime t)).heldFences =
        (ft.setCurrent { ft.current with frameReadyTime := t }).heldFences from rfl, h, hfc]
      omega
  | setActualPresentTime t =>
      have h : (ft.setCurrent { ft.current with actualPresentTime := t }).heldFences =
          ft.heldFences + FrameRecord.fenceCount { ft.current with actualPresentTime := t } -
            ft.current.fenceCount := heldFences_set ft _ hwf
      have hfc : FrameRecord.fenceCount { ft.current with actualPresentTime := t } =
          ft.current.fenceCount := rfl
      show ft.mNumFences = _
      rw [show (FTOp.apply ft (.setActualPresentTime t)).heldFences =
        (ft.setCurrent { ft.current with actualPresentTime := t }).heldFences from rfl, h, hfc]
      omega
  | setFrameReadyFence f =>
      have h : (ft.setCurrent { ft.current with frameReadyFence := some f }).heldFences =
          ft.heldFences + FrameRecord.fenceCount { ft.current with frameReadyFence := some f } -
            ft.current.fenceCount := heldFences_set ft _ hwf
      have hnone : ft.current.frameReadyFence = none := hclean
      have hfc : FrameRecord.fenceCount { ft.current with frameReadyFence := some f } =
          ft.current.fenceCount + 1 := by
        simp [FrameRecord.fenceCount, hnone, add_comm]
      show ft.mNumFences + 1 = _
      rw [show (FTOp.apply ft (.setFrameReadyFence f)).heldFences =
        (ft.setCurrent { ft.current with frameReadyFence := some f }).heldFences from rfl, h, hfc]
      omega
  | setActualPresentFence f =>
      have h : (ft.setCurrent { ft.current with actualPresentFence := some f }).heldFences =
          ft.heldFences + FrameRecord.fenceCount { ft.current with actualPresentFence := some f } -
            ft.current.fenceCount := heldFences_set ft _ hwf
      have hnone : ft.current.actualPresentFence = none := hclean
      have hfc : FrameRecord.fenceCount { ft.current with actualPresentFence := some f } =
          ft.current.fenceCount + 1 := by
        simp [FrameRecord.fenceCount, hnone, add_comm]
      show ft.mNumFences + 1 = _
      rw [show (FTOp.apply ft (.setActualPresentFence f)).heldFences =
        (ft.setCurrent { ft.current with actualPresentFence := some f }).heldFences from rfl, h, hfc]
      omega
  | advanceFrame =>
      have hlt : (ft.mOffset + 1) % NUM_FRAME_RECORDS < ft.mFrameRecords.length := by
        rw [hwf.1]
        exact Nat.mod_lt _ (by decide)
      have h := sum_map_set FrameRecord.fenceCount ({} : FrameRecord) ft.mFrameRecords
        ((ft.mOffset + 1) % NUM_FRAME_RECORDS) {} hlt
      show ft.mNumFences - _ = _
      unfold FrameTracker.heldFences
      simp only [FTOp.apply, FrameTracker.advanceFrame]
      rw [h]
      unfold FrameTracker.heldFences at hce
      have hz : FrameRecord.fenceCount ({} : FrameRecord) = 0 := rfl
      rw [hz]
      omega
  | clear =>
      show (0 : Int) = _
      rw [show (FTOp.apply ft .clear).heldFences = ft.clear.heldFences from rfl,
        heldFences_clear]
  | processFences =>
      show ft.mNumFences - _ = _
      rw [show (FTOp.apply ft .processFences).heldFences = ft.processFences.heldFences from rfl,
        heldFences_processFences]
      omega

theorem counterExact_run (ops : List FTOp) : ∀ ft : FrameTracker, ft.WF →
    ft.counterExact → cleanSeq ft ops →
    (runFT ft ops).WF ∧ (runFT ft ops).counterExact := by
  induction ops with
  | nil => intro ft hwf hce _; exact ⟨hwf, hce⟩
  | cons op ops ih =>
      intro ft hwf hce hclean
      exact ih (op.apply ft) (WF_apply ft op hwf)
        (counterExact_apply ft op hwf hclean.1 hce) hclean.2

theorem init_WF : FrameTracker.WF FrameTracker.init := by
  constructor <;> simp [FrameTracker.init, NUM_FRAME_RECORDS]

theorem init_counterExact : FrameTracker.init.counterExact := by
  unfold FrameTracker.counterExact FrameTracker.init FrameTracker.heldFences
  apply Eq.symm
  apply List.sum_eq_zero
  intro x hx
  obtain ⟨r, hr, rfl⟩ := List.mem_map.mp hx
  rw [List.eq_of_mem_replicate hr]
  rfl

set_option maxRecDepth 16384 in
/-- C2 (amended). As long as no `set*Fence` call overwrites a field that
still holds an unresolved fence, the outstanding-fence counter equals,
after every operation, the total number of unresolved fences held across
the records — counting the two fence fields of a record separately, not
the number of fence-holding records. Moreover the spec's 128-times
scenario (set a never-signaled fence, `advanceFrame`, repeated 128 times
from a cleared tracker) leaves the counter at 127, not 1: each
`advanceFrame` clobbers only the one record it wraps onto, and only the
final advance reaches a record still holding a fence. -/
theorem frameTracker_counter_amended :
    (∀ ops : List FTOp, cleanSeq FrameTracker.init ops →
        (runFT FrameTracker.init ops).counterExact) ∧
      scenario128.mNumFences = 127 := by
  constructor
  · intro ops h
    exact (counterExact_run ops FrameTracker.init init_WF init_counterExact h).2
  · decide

/-- C2 witness: a concrete clean operation sequence on which the amended
counter invariant is discharged by evaluation. -/
theorem frameTracker_counter_amended_witness :
    cleanSeq FrameTracker.init
        [FTOp.setFrameReadyFence .pending, FTOp.advanceFrame, FTOp.processFences] ∧
      (runFT FrameTracker.init
        [FTOp.setFrameReadyFence .pending, FTOp.advanceFrame,
          FTOp.processFences]).counterExact :=
  ⟨by decide, frameTracker_counter_amended.1 _ (by decide)⟩

set_option maxRecDepth 16384 in
/-- C2 counterexample: the claim asserts the 128-times scenario leaves
the outstanding-fence counter equal to 1; evaluating the modelled tracker
shows it leaves the counter at 127. -/
theorem frameTracker_counter_cex : scenario128.mNumFences ≠ 1 := by decide

theorem processRecord_spec (r : FrameRecord) :
    (r.frameReadyFence = none ∧ r.actualPresentFence = none → processRecord r = r) ∧
    (∀ t, r.frameReadyFence = some (.signaledAt t) →
        (processRecord r).frameReadyTime = t ∧ (processRecord r).frameReadyFence = none) ∧
    (r.frameReadyFence = some .pending →
        (processRecord r).frameReadyTime = INT64_MAX ∧
          (processRecord r).frameReadyFence = some .pending) ∧
    (∀ t, r.actualPresentFence = some (.signaledAt t) →
        (processRecord r).actualPresentTime = t ∧
          (processRecord r).actualPresentFence = none) ∧
    (r.actualPresentFence = some .pending →
        (processRecord r).actualPresentTime = INT64_MAX ∧
          (processRecord r).actualPresentFence = some .pending) := by
  obtain ⟨d, rt, pt, rf, pa⟩ := r
  rcases rf with _ | (_ | t) <;> rcases pa with _ | (_ | u) <;>
    simp [processRecord, collapseFence]

/-- C7. `processFences` leaves every record holding no fence untouched
(it visits only fence-holding records); in a record whose fence has
signaled, the fence is replaced by its signal timestamp; in a record
whose fence is still pending, the corresponding display time becomes the
`INT64_MAX` "unknown" sentinel (which is nonzero, distinguishing
"not yet known" from "known to be zero") and the fence is kept; and the
counter drops by exactly the number of signaled fences collapsed. -/
theorem processFences_spec (ft : FrameTracker) (i : Nat) (r r' : FrameRecord)
    (hr : r = ft.mFrameRecords.getD i {})
    (hr' : r' = ft.processFences.mFrameRecords.getD i {}) :
    (r.frameReadyFence = none ∧ r.actualPresentFence = none → r' = r) ∧
    (∀ t, r.frameReadyFence = some (.signaledAt t) →
        r'.frameReadyTime = t ∧ r'.frameReadyFence = none) ∧
    (r.frameReadyFence = some .pending →
        r'.frameReadyTime = INT64_MAX ∧ INT64_MAX ≠ 0 ∧
          r'.frameReadyFence = some .pending) ∧
    (∀ t, r.actualPresentFence = some (.signaledAt t) →
        r'.actualPresentTime = t ∧ r'.actualPresentFence = none) ∧
    (r.actualPresentFence = some .pending →
        r'.actualPresentTime = INT64_MAX ∧ r'.actualPresentFence = some .pending) ∧
    ft.processFences.mNumFences = ft.mNumFences - signaledCount ft.mFrameRecords := by
  have hmap : ft.processFences.mFrameRecords = ft.mFrameRecords.map processRecord := rfl
  have hcnt : ft.processFences.mNumFences =
      ft.mNumFences - signaledCount ft.mFrameRecords := rfl
  subst hr hr'
  rw [hmap]
  cases hget : ft.mFrameRecords.get? i with
  | none =>
      have h1 : ft.mFrameRecords.getD i {} = {} := by
        unfold List.getD
        rw [hget]
        rfl
      have h2 : (ft.mFrameRecords.map processRecord).getD i {} = {} := by
        unfold List.getD
        rw [List.get?_map, hget]
        rfl
      rw [h1, h2]
      refine ⟨fun _ => rfl, ?_, ?_, ?_, ?_, hcnt⟩ <;> simp
  | some a =>
      have h1 : ft.mFrameRecords.getD i {} = a := by
        unfold List.getD
        rw [hget]
        rfl
      have h2 : (ft.mFrameRecords.map processRecord).getD i {} = processRecord a := by
        unfold List.getD
        rw [List.get?_map, hget]
        rfl
      rw [h1, h2]
      have hs := processRecord_spec a
      exact ⟨fun h => hs.1 h, hs.2.1, fun h => ⟨(hs.2.2.1 h).1, by decide, (hs.2.2.1 h).2⟩,
        hs.2.2.2.1, hs.2.2.2.2, hcnt⟩

/-- C7 witness: a frame-ready fence signaled at t = 500 is collapsed by
`processFences` into `frameReadyTime = 500`, evaluated concretely. -/
theorem processFences_spec_witness :
    ((FrameTracker.init.setFrameReadyFence (.signaledAt 500)).processFences.mFrameRecords.getD
        0 {}).frameReadyTime = 500 ∧
      ((FrameTracker.init.setFrameReadyFence (.signaledAt 500)).processFences.mFrameRecords.getD
        0 {}).frameReadyFence = none := by
  have h := processFences_spec (FrameTracker.init.setFrameReadyFence (.signaledAt 500)) 0
    _ _ rfl rfl
  exact h.2.1 500 (by decide)

end FrameTrackerModel

/-! ## QueueBufferOutput theorems -/

namespace BufferQueueModel

/-- C9. The `QueueBufferOutput` reply record consists of exactly the four
unsigned 32-bit fields `(width, height, transformHint, numPendingBuffers)`
in that order — `deflate` reads precisely those fields back in declaration
order, and `inflate` keeps every field a 32-bit value — and the accessors
preserve each field: inflating four 32-bit values and then deflating
returns the same four values in the same order. (Byte-level packing is a
memory-layout attribute outside the embedding; the record is represented
field-exactly.) -/
theorem queueBufferOutput_roundtrip (o : QueueBufferOutput) (w h t n : Nat)
    (hw : w < 2 ^ 32) (hh : h < 2 ^ 32) (ht : t < 2 ^ 32) (hn : n < 2 ^ 32) :
    (o.inflate w h t n).deflate = (w, h, t, n) ∧
      (o.inflate w h t n).wf32 ∧
      ∀ o' : QueueBufferOutput,
        o'.deflate = (o'.width, o'.height, o'.transformHint, o'.numPendingBuffers) := by
  refine ⟨?_, ?_, fun o' => rfl⟩
  · have hred : (QueueBufferOutput.inflate o w h t n).deflate =
        (w % 2 ^ 32, h % 2 ^ 32, t % 2 ^ 32, n % 2 ^ 32) := rfl
    rw [hred, Nat.mod_eq_of_lt hw, Nat.mod_eq_of_lt hh, Nat.mod_eq_of_lt ht,
      Nat.mod_eq_of_lt hn]
  · exact ⟨Nat.mod_lt _ (by norm_num), Nat.mod_lt _ (by norm_num),
      Nat.mod_lt _ (by norm_num), Nat.mod_lt _ (by norm_num)⟩

/-- C9 witness: a concrete inflate/deflate round trip. -/
theorem queueBufferOutput_roundtrip_witness :
    (QueueBufferOutput.inflate {} 1920 1080 4 2).deflate = (1920, 1080, 4, 2) :=
  (queueBufferOutput_roundtrip {} 1920 1080 4 2 (by norm_num) (by norm_num)
    (by norm_num) (by norm_num)).1

/-- C3 (amended). `connect` returns `noInit` when the queue is abandoned
or no consumer has ever attached; it returns `badValue` — not the spec's
`BadState` — when a producer API is already connected or the api argument
is unrecognized; on success it records the connected API (and the
producer's `controlledByApp` flag) and returns the current defaults. -/
theorem connect_contract (q : BufferQueue) (api : Int) (c : Bool) :
    (q.mAbandoned = true ∨ q.mConsumerConnected = false →
      q.connect api c = (.noInit, none, q)) ∧
    (q.mAbandoned = false → q.mConsumerConnected = true →
      validProducerApi api = false ∨ q.mConnectedApi.isSome = true →
      q.connect api c = (.badValue, none, q)) ∧
    (q.mAbandoned = false → q.mConsumerConnected = true →
      validProducerApi api = true → q.mConnectedApi = none →
      q.connect api c = (.ok, some q.currentOutput,
        { q with mConnectedApi := some api, producerControlledByApp := c })) := by
  refine ⟨fun h => ?_, fun ha hc h => ?_, fun ha hc hv hn => ?_⟩
  · rcases h with h | h
    · simp [BufferQueue.connect, h]
    · by_cases ha : q.mAbandoned <;> simp [BufferQueue.connect, ha, h]
  · rcases h with h | h
    · simp [BufferQueue.connect, ha, hc, h]
    · by_cases hv : validProducerApi api <;> simp [BufferQueue.connect, ha, hc, hv, h]
  · simp [BufferQueue.connect, ha, hc, hv, hn]

/-- C3 witness: on a fresh queue with a consumer attached, `connect`
succeeds, records api 1 and returns the defaults. -/
theorem connect_contract_witness :
    (BufferQueue.init.consumerConnect false).connect 1 false =
      (.ok, some (BufferQueue.init.consumerConnect false).currentOutput,
        { BufferQueue.init.consumerConnect false with
            mConnectedApi := some 1, producerControlledByApp := false }) :=
  (connect_contract (BufferQueue.init.consumerConnect false) 1 false).2.2
    rfl rfl rfl rfl

/-- C3 counterexample: with a producer already connected (reachable state
`qConnected`), `connect` returns `badValue`, not the `badState` the claim
names. -/
theorem connect_badState_cex :
    qConnected.mConnectedApi.isSome = true ∧
      (qConnected.connect 1 false).1 = .badValue ∧
      (qConnected.connect 1 false).1 ≠ .badState := by
  refine ⟨by decide, by decide, by decide⟩

/-- C4 (amended). `disconnect` returns `badValue` — not the spec's
`BadState` — when the api does not match the connected one (or is out of
range); it succeeds as a no-op on an abandoned queue; otherwise it clears
the connected API, forces every `DEQUEUED` slot back to `FREE`, and no
subsequent `dequeueBuffer` can block (a woken waiter re-running its call
gets the abandonment-equivalent `noInit`). -/
theorem disconnect_contract (q : BufferQueue) (api : Int) :
    (q.mAbandoned = true → q.disconnect api = (.ok, q)) ∧
    (q.mAbandoned = false →
      validProducerApi api = false ∨ q.mConnectedApi ≠ some api →
      q.disconnect api = (.badValue, q)) ∧
    (q.mAbandoned = false → validProducerApi api = true → q.mConnectedApi = some api →
      (q.disconnect api).1 = .ok ∧
      (q.disconnect api).2.mConnectedApi = none ∧
      (∀ s ∈ (q.disconnect api).2.slots, s.state ≠ .DEQUEUED) ∧
      (∀ (async : Bool) (w h f u : Nat),
        ((q.disconnect api).2.dequeueBuffer async w h f u).1 = .failure .noInit)) := by
  refine ⟨fun ha => ?_, fun ha h => ?_, fun ha hv hm => ?_⟩
  · simp [BufferQueue.disconnect, ha]
  · rcases h with h | h
    · simp [BufferQueue.disconnect, ha, h]
    · by_cases hv : validProducerApi api <;> simp [BufferQueue.disconnect, ha, hv, h]
  · have hq : q.disconnect api =
        (.ok, { q with mConnectedApi := none, slots := q.slots.map Slot.forceFree }) := by
      simp [BufferQueue.disconnect, ha, hv, hm]
    refine ⟨by rw [hq], by rw [hq], ?_, ?_⟩
    · intro s hs
      rw [hq] at hs
      obtain ⟨t, _, rfl⟩ := List.mem_map.mp hs
      unfold Slot.forceFree
      by_cases ht : t.state = .DEQUEUED <;> simp [ht]
    · intro async w h f u
      rw [hq]
      simp [BufferQueue.dequeueBuffer, ha]

/-- C4 witness: disconnecting the matching api on a live queue succeeds,
clears the connection and leaves no `DEQUEUED` slot. -/
theorem disconnect_contract_witness :
    (qConnected.disconnect 1).1 = .ok ∧
      (qConnected.disconnect 1).2.mConnectedApi = none ∧
      ((qConnected.disconnect 1).2.dequeueBuffer false 64 64 1 0).1 = .failure .noInit := by
  have h := (disconnect_contract qConnected 1).2.2 (by decide) (by decide) (by decide)
  exact ⟨h.1, h.2.1, h.2.2.2 false 64 64 1 0⟩

/-- C4 counterexample: with api 1 connected (reachable state
`qConnected`), `disconnect 2` returns `badValue`, not the `badState` the
claim names. -/
theorem disconnect_badState_cex :
    qConnected.mConnectedApi = some 1 ∧
      (qConnected.disconnect 2).1 = .badValue ∧
      (qConnected.disconnect 2).1 ≠ .badState := by
  refine ⟨by decide, by decide, by decide⟩

/-- C5 (amended). On a queue that is not abandoned (an abandoned queue
fails `noInit` before any other check), `setBufferCount` returns
`badValue` whenever some slot is `DEQUEUED`, and whenever the count is
nonzero and outside `(minUndequeuedBuffers, NUM_BUFFER_SLOTS]`; 0 is the
accepted "unset" sentinel; on success the override is reset (or set) and
every slot's cached buffer is emptied, so the next dequeue of each slot
requires reallocation. -/
theorem setBufferCount_contract (q : BufferQueue) (n : Int)
    (hab : q.mAbandoned = false) :
    (q.hasDequeuedSlot = true → (q.setBufferCount n).1 = .badValue) ∧
    (n ≠ 0 → n ≤ (q.minUndequeuedBuffers : Int) ∨ (NUM_BUFFER_SLOTS : Int) < n →
      (q.setBufferCount n).1 = .badValue) ∧
    (q.hasDequeuedSlot = false → n = 0 →
      q.setBufferCount n =
        (.ok, { q with mOverrideMaxBufferCount := 0, slots := q.slots.map Slot.emptied })) ∧
    (q.hasDequeuedSlot = false →
      (q.minUndequeuedBuffers : Int) < n → n ≤ (NUM_BUFFER_SLOTS : Int) →
      q.setBufferCount n =
        (.ok, { q with mOverrideMaxBufferCount := n.toNat,
                       slots := q.slots.map Slot.emptied })) ∧
    ((q.setBufferCount n).1 = .ok →
      ∀ s ∈ (q.setBufferCount n).2.slots, s.buffer = none ∧ s.state = .FREE) := by
  refine ⟨fun hd => ?_, fun hn h => ?_, fun hd hn => ?_, fun hd hlo hhi => ?_, fun hok => ?_⟩
  · by_cases hbig : (NUM_BUFFER_SLOTS : Int) < n
    · simp [BufferQueue.setBufferCount, hab, hbig]
    · simp [BufferQueue.setBufferCount, hab, hbig, hd]
  · rcases h with h | h
    · by_cases hd : q.hasDequeuedSlot
      · by_cases hbig : (NUM_BUFFER_SLOTS : Int) < n
        · simp [BufferQueue.setBufferCount, hab, hbig]
        · simp [BufferQueue.setBufferCount, hab, hbig, hd]
      · by_cases hbig : (NUM_BUFFER_SLOTS : Int) < n
        · simp [BufferQueue.setBufferCount, hab, hbig]
        · simp [BufferQueue.setBufferCount, hab, hbig, hd, hn, h]
    · simp [BufferQueue.setBufferCount, hab, h]
  · subst hn
    simp [BufferQueue.setBufferCount, hab, hd, NUM_BUFFER_SLOTS]
  · have h0 : (0 : Int) ≤ (q.minUndequeuedBuffers : Int) := Int.natCast_nonneg _
    have hne : n ≠ 0 := by omega
    simp [BufferQueue.setBufferCount, hab, not_lt.mpr hhi, hd, hne, not_le.mpr hlo]
  · have hslots : (q.setBufferCount n).2.slots = q.slots.map Slot.emptied := by
      unfold BufferQueue.setBufferCount at hok ⊢
      rw [hab] at hok ⊢
      split_ifs at hok ⊢ <;> simp_all
    intro s hs
    rw [hslots] at hs
    obtain ⟨t, _, rfl⟩ := List.mem_map.mp hs
    exact ⟨rfl, rfl⟩

/-- C5 witness: on a live queue with no dequeued slot, count 3 is inside
the valid range and succeeds, emptying every slot. -/
theorem setBufferCount_contract_witness :
    qConnected.mAbandoned = false ∧
      (qConnected.setBufferCount 3).1 = .ok ∧
      ∀ s ∈ (qConnected.setBufferCount 3).2.slots, s.buffer = none := by
  have hc := setBufferCount_contract qConnected 3 (by decide)
  have hok : (qConnected.setBufferCount 3).1 = .ok := by decide
  exact ⟨by decide, hok, fun s hs => (hc.2.2.2.2 hok s hs).1⟩

/-- C5 counterexample: an abandoned queue that still holds a `DEQUEUED`
slot (reachable state `qAbandonedDequeued`) makes `setBufferCount` return
`noInit`, not the `badValue` the claim asserts for every dequeued-slot
state. -/
theorem setBufferCount_abandoned_cex :
    qAbandonedDequeued.hasDequeuedSlot = true ∧
      (qAbandonedDequeued.setBufferCount 3).1 = .noInit ∧
      (qAbandonedDequeued.setBufferCount 3).1 ≠ .badValue := by
  refine ⟨by decide, by decide, by decide⟩

theorem findFreeMatching_none {slots : List Slot} {bound : Nat} {want : BufferSpec}
    (h : findFreeAny slots bound = none) : findFreeMatching slots bound want = none := by
  unfold findFreeAny at h
  unfold findFreeMatching
  rw [List.find?_eq_none] at h ⊢
  intro i hi hc
  simp only [Bool.and_eq_true] at hc
  exact h i hi hc.1

theorem pickFreeSlot_none {slots : List Slot} {bound : Nat} {want : BufferSpec}
    (h : findFreeAny slots bound = none) : pickFreeSlot slots bound want = none := by
  unfold pickFreeSlot
  rw [findFreeMatching_none h, h]

theorem pickFreeSlot_isSome {slots : List Slot} {bound : Nat} {want : BufferSpec}
    (h : (findFreeAny slots bound).isSome = true) :
    (pickFreeSlot slots bound want).isSome = true := by
  unfold pickFreeSlot
  cases hm : findFreeMatching slots bound want
  · exact h
  · rfl

/-- C6 (amended). With the queue live and a producer connected: when no
`FREE` slot is available below the effective cap, `dequeueBuffer` reports
`blocked` (the calling thread sleeps until a slot becomes `FREE`), except
that it fails immediately with `wouldBlock` when both producer and
consumer are app-controlled; in async mode it returns without waiting
whenever a `FREE` slot exists below the async-extended cap (the reserved
extra async slot). However — beyond what the claim lists — the validation
gates also return without blocking: `badValue` for async mode under a
too-small buffer-count override, and `busy` for a dequeued buffer already
outstanding without a prior `setBufferCount`. -/
theorem dequeueBuffer_blocking (q : BufferQueue) (async : Bool) (w h f u : Nat)
    (hab : q.mAbandoned = false) (hcon : q.mConnectedApi.isSome = true) :
    (q.asyncOverrideGate async = true →
      (q.dequeueBuffer async w h f u).1 = .failure .badValue) ∧
    (q.asyncOverrideGate async = false → q.busyGate = true →
      (q.dequeueBuffer async w h f u).1 = .failure .busy) ∧
    (q.asyncOverrideGate async = false → q.busyGate = false →
      findFreeAny q.slots (q.effectiveMaxBufferCount async) = none →
      ((q.producerControlledByApp && q.consumerControlledByApp) = true →
        (q.dequeueBuffer async w h f u).1 = .failure .wouldBlock) ∧
      ((q.producerControlledByApp && q.consumerControlledByApp) = false →
        (q.dequeueBuffer async w h f u).1 = .blocked)) ∧
    (q.asyncOverrideGate async = false → q.busyGate = false → async = true →
      (findFreeAny q.slots (q.effectiveMaxBufferCount true)).isSome = true →
      ∃ slot realloc fence, (q.dequeueBuffer async w h f u).1 =
        .success slot realloc fence) := by
  obtain ⟨capi, hcapi⟩ := Option.isSome_iff_exists.mp hcon
  refine ⟨fun hg1 => ?_, fun hg1 hg2 => ?_,
    fun hg1 hg2 hnone => ⟨fun hboth => ?_, fun hboth => ?_⟩, fun hg1 hg2 ha hsome => ?_⟩
  · simp [BufferQueue.dequeueBuffer, hab, hcapi, hg1]
  · simp [BufferQueue.dequeueBuffer, hab, hcapi, hg1, hg2]
  · have hp : ∀ want, pickFreeSlot q.slots (q.effectiveMaxBufferCount async) want = none :=
      fun _ => pickFreeSlot_none hnone
    simp [BufferQueue.dequeueBuffer, hab, hcapi, hg1, hg2, hp, hboth]
  · have hp : ∀ want, pickFreeSlot q.slots (q.effectiveMaxBufferCount async) want = none :=
      fun _ => pickFreeSlot_none hnone
    simp [BufferQueue.dequeueBuffer, hab, hcapi, hg1, hg2, hp, hboth]
  · subst ha
    have hp : ∀ want, (pickFreeSlot q.slots (q.effectiveMaxBufferCount true) want).isSome =
        true := fun _ => pickFreeSlot_isSome hsome
    obtain ⟨i, hi⟩ := Option.isSome_iff_exists.mp
      (hp ⟨if w = 0 && h = 0 then q.mDefaultWidth else w,
            if w = 0 && h = 0 then q.mDefaultHeight else h,
            if f = 0 then q.mDefaultFormat else f, u⟩)
    simp only [Bool.and_eq_true, decide_eq_true_eq] at hi
    simp [BufferQueue.dequeueBuffer, hab, hcapi, hg1, hg2, hi]
    exact em _

/-- C6 witness: with both in-cap slots `QUEUED` and neither side
app-controlled, a synchronous dequeue reports `blocked`. -/
theorem dequeueBuffer_blocking_witness :
    (qBothQueued.dequeueBuffer false 64 64 1 0).1 = .blocked :=
  ((dequeueBuffer_blocking qBothQueued false 64 64 1 0 (by decide) (by decide)).2.2.1
    (by decide) (by decide) (by decide)).2 (by decide)

/-- C6 counterexample: in the reachable state `qBusyState` there is no
`FREE` slot below the effective cap, neither side is app-controlled and
the call is synchronous, yet `dequeueBuffer` does not block — it fails
immediately with `busy` (a dequeued buffer is outstanding and no
`setBufferCount` was made), an exception the claim does not list. -/
theorem dequeueBuffer_blocking_cex :
    findFreeAny qBusyState.slots (qBusyState.effectiveMaxBufferCount false) = none ∧
      (qBusyState.producerControlledByApp && qBusyState.consumerControlledByApp) = false ∧
      (qBusyState.dequeueBuffer false 64 64 1 0).1 = .failure .busy ∧
      (qBusyState.dequeueBuffer false 64 64 1 0).1 ≠ .blocked := by
  refine ⟨by decide, by decide, by decide, by decide⟩

theorem oldestQueuedAux_none : ∀ (l : List Slot) (i : Nat),
    oldestQueuedAux l i = none → ∀ s ∈ l, s.state ≠ .QUEUED
  | [], _, _, s, hs => absurd hs (List.not_mem_nil s)
  | t :: rest, i, h, s, hs => by
      unfold oldestQueuedAux at h
      by_cases ht : t.state = .QUEUED
      · rw [if_pos ht] at h
        cases htail : oldestQueuedAux rest (i + 1) with
        | none => rw [htail] at h; exact absurd h (by dsimp; simp)
        | some p =>
            obtain ⟨j, f⟩ := p
            rw [htail] at h
            dsimp only at h
            revert h
            split <;> intro h <;> exact absurd h (by simp)
      · rw [if_neg ht] at h
        rcases List.mem_cons.mp hs with rfl | hs'
        · exact ht
        · exact oldestQueuedAux_none rest (i + 1) h s hs'

theorem oldestQueuedAux_min : ∀ (l : List Slot) (i j f : Nat),
    oldestQueuedAux l i = some (j, f) → ∀ s ∈ l, s.state = .QUEUED → f ≤ s.frameNumber
  | [], _, _, _, h => by exact absurd h (by simp [oldestQueuedAux])
  | t :: rest, i, j, f, h => by
      intro s hs hq
      unfold oldestQueuedAux at h
      by_cases ht : t.state = .QUEUED
      · rw [if_pos ht] at h
        cases htail : oldestQueuedAux rest (i + 1) with
        | none =>
            rw [htail] at h
            dsimp only at h
            simp only [Option.some.injEq, Prod.mk.injEq] at h
            rcases List.mem_cons.mp hs with rfl | hs'
            · exact le_of_eq h.2.symm
            · exact absurd hq (oldestQueuedAux_none rest (i + 1) htail s hs')
        | some p =>
            obtain ⟨j', f'⟩ := p
            rw [htail] at h
            dsimp only at h
            by_cases hlt : f' < t.frameNumber
            · rw [if_pos hlt] at h
              simp only [Option.some.injEq, Prod.mk.injEq] at h
              obtain ⟨rfl, rfl⟩ := h
              rcases List.mem_cons.mp hs with rfl | hs'
              · exact hlt.le
              · exact oldestQueuedAux_min rest (i + 1) _ _ htail s hs' hq
            · rw [if_neg hlt] at h
              simp only [Option.some.injEq, Prod.mk.injEq] at h
              rcases List.mem_cons.mp hs with rfl | hs'
              · exact le_of_eq h.2.symm
              · exact le_trans (le_of_eq h.2.symm)
                  (le_trans (not_lt.mp hlt)
                    (oldestQueuedAux_min rest (i + 1) j' f' htail s hs' hq))
      · rw [if_neg ht] at h
        rcases List.mem_cons.mp hs with rfl | hs'
        · exact absurd hq ht
        · exact oldestQueuedAux_min rest (i + 1) j f h s hs' hq

theorem oldestQueuedAux_mem : ∀ (l : List Slot) (i j f : Nat),
    oldestQueuedAux l i = some (j, f) →
    ∃ s, s ∈ l ∧ s.state = .QUEUED ∧ s.frameNumber = f
  | [], _, _, _, h => by exact absurd h (by simp [oldestQueuedAux])
  | t :: rest, i, j, f, h => by
      unfold oldestQueuedAux at h
      by_cases ht : t.state = .QUEUED
      · rw [if_pos ht] at h
        cases htail : oldestQueuedAux rest (i + 1) with
        | none =>
            rw [htail] at h
            dsimp only at h
            simp only [Option.some.injEq, Prod.mk.injEq] at h
            exact ⟨t, List.mem_cons_self t rest, ht, h.2⟩
        | some p =>
            obtain ⟨j', f'⟩ := p
            rw [htail] at h
            dsimp only at h
            by_cases hlt : f' < t.frameNumber
            · rw [if_pos hlt] at h
              simp only [Option.some.injEq, Prod.mk.injEq] at h
              obtain ⟨rfl, rfl⟩ := h
              obtain ⟨s, hs, hsq, hsf⟩ := oldestQueuedAux_mem rest (i + 1) _ _ htail
              exact ⟨s, List.mem_cons_of_mem t hs, hsq, hsf⟩
            · rw [if_neg hlt] at h
              simp only [Option.some.injEq, Prod.mk.injEq] at h
              exact ⟨t, List.mem_cons_self t rest, ht, h.2⟩
      · rw [if_neg ht] at h
        obtain ⟨s, hs, hsq, hsf⟩ := oldestQueuedAux_mem rest (i + 1) j f h
        exact ⟨s, List.mem_cons_of_mem t hs, hsq, hsf⟩

theorem acquireBuffer_some (q : BufferQueue) (i f : Nat) (fe : Option FenceState)
    (q' : BufferQueue) (h : q.acquireBuffer = some (i, f, fe, q')) :
    q.mAbandoned = false ∧ oldestQueued q.slots = some (i, f) ∧
      q'.slots = q.slots.set i
        { q.slots.getD i default with state := .ACQUIRED, fence := none } ∧
      q'.mFrameCounter = q.mFrameCounter := by
  unfold BufferQueue.acquireBuffer at h
  by_cases ha : q.mAbandoned
  · rw [if_pos ha] at h
    exact absurd h (by simp)
  · rw [if_neg ha] at h
    cases hm : oldestQueued q.slots with
    | none =>
        rw [hm] at h
        exact absurd h (by simp)
    | some p =>
        obtain ⟨j, g⟩ := p
        rw [hm] at h
        simp only [Option.some.injEq, Prod.mk.injEq] at h
        obtain ⟨rfl, rfl, hfe, rfl⟩ := h
        refine ⟨by simp at ha; exact ha, rfl, rfl, rfl⟩

theorem preserve_of_unchanged {q q' : BufferQueue} (f : Nat) (hs : q'.slots = q.slots)
    (hc : q'.mFrameCounter = q.mFrameCounter) (hInv : q.Inv) (hge : q.queuedGE f)
    (hle : f ≤ q.mFrameCounter) : q'.Inv ∧ q'.queuedGE f ∧ f ≤ q'.mFrameCounter := by
  unfold BufferQueue.Inv BufferQueue.queuedGE at *
  rw [hs, hc]
  exact ⟨hInv, hge, hle⟩

theorem preserve_of_set {q q' : BufferQueue} {i : Nat} {r : Slot} (f : Nat)
    (hr : r.state ≠ .QUEUED)
    (hs : q'.slots = q.slots.set i r) (hc : q'.mFrameCounter = q.mFrameCounter)
    (hInv : q.Inv) (hge : q.queuedGE f) (hle : f ≤ q.mFrameCounter) :
    q'.Inv ∧ q'.queuedGE f ∧ f ≤ q'.mFrameCounter := by
  unfold BufferQueue.Inv BufferQueue.queuedGE at *
  rw [hs, hc]
  refine ⟨?_, ?_, hle⟩
  · intro s hmem hq
    rcases List.mem_or_eq_of_mem_set hmem with hmem' | rfl
    · exact hInv s hmem' hq
    · exact absurd hq hr
  · intro s hmem hq
    rcases List.mem_or_eq_of_mem_set hmem with hmem' | rfl
    · exact hge s hmem' hq
    · exact absurd hq hr

theorem preserve_of_map {q q' : BufferQueue} {g : Slot → Slot} (f : Nat)
    (hg : ∀ t, (g t).state = .QUEUED → g t = t)
    (hs : q'.slots = q.slots.map g) (hc : q'.mFrameCounter = q.mFrameCounter)
    (hInv : q.Inv) (hge : q.queuedGE f) (hle : f ≤ q.mFrameCounter) :
    q'.Inv ∧ q'.queuedGE f ∧ f ≤ q'.mFrameCounter := by
  unfold BufferQueue.Inv BufferQueue.queuedGE at *
  rw [hs, hc]
  refine ⟨?_, ?_, hle⟩
  · intro s hmem hq
    obtain ⟨t, ht, rfl⟩ := List.mem_map.mp hmem
    have heq := hg t hq
    rw [heq] at hq ⊢
    exact hInv t ht hq
  · intro s hmem hq
    obtain ⟨t, ht, rfl⟩ := List.mem_map.mp hmem
    have heq := hg t hq
    rw [heq] at hq ⊢
    exact hge t ht hq

theorem preserve_of_queue {q q' : BufferQueue} {i : Nat} {r : Slot} (f : Nat)
    (hr : r.frameNumber = q.mFrameCounter + 1)
    (hs : q'.slots = q.slots.set i r) (hc : q'.mFrameCounter = q.mFrameCounter + 1)
    (hInv : q.Inv) (hge : q.queuedGE f) (hle : f ≤ q.mFrameCounter) :
    q'.Inv ∧ q'.queuedGE f ∧ f ≤ q'.mFrameCounter := by
  unfold BufferQueue.Inv BufferQueue.queuedGE at *
  rw [hs, hc]
  refine ⟨?_, ?_, hle.trans (Nat.le_succ _)⟩
  · intro s hmem hq
    rcases List.mem_or_eq_of_mem_set hmem with hmem' | rfl
    · exact (hInv s hmem' hq).trans (Nat.le_succ _)
    · exact le_of_eq hr
  · intro s hmem hq
    rcases List.mem_or_eq_of_mem_set hmem with hmem' | rfl
    · exact hge s hmem' hq
    · rw [hr]
      exact hle.trans (Nat.le_succ _)

theorem forceFree_queued_eq (t : Slot) :
    (Slot.forceFree t).state = .QUEUED → Slot.forceFree t = t := by
  unfold Slot.forceFree
  by_cases ht : t.state = .DEQUEUED <;> simp [ht]

theorem emptied_queued_eq (t : Slot) :
    (Slot.emptied t).state = .QUEUED → Slot.emptied t = t := by
  intro h
  exact absurd h (by simp [Slot.emptied])

theorem step_preserve (q : BufferQueue) (op : BQOp) (f : Nat)
    (hInv : q.Inv) (hge : q.queuedGE f) (hle : f ≤ q.mFrameCounter) :
    (op.apply q).Inv ∧ (op.apply q).queuedGE f ∧ f ≤ (op.apply q).mFrameCounter := by
  cases op with
  | consumerConnect c =>
      exact preserve_of_unchanged f rfl rfl hInv hge hle
  | abandon =>
      exact preserve_of_unchanged f rfl rfl hInv hge hle
  | connect api c =>
      show ((q.connect api c).2.2).Inv ∧ ((q.connect api c).2.2).queuedGE f ∧
        f ≤ ((q.connect api c).2.2).mFrameCounter
      unfold BufferQueue.connect
      split_ifs <;> exact preserve_of_unchanged f rfl rfl hInv hge hle
  | disconnect api =>
      show ((q.disconnect api).2).Inv ∧ ((q.disconnect api).2).queuedGE f ∧
        f ≤ ((q.disconnect api).2).mFrameCounter
      unfold BufferQueue.disconnect
      split_ifs <;>
        first
          | exact preserve_of_unchanged f rfl rfl hInv hge hle
          | exact preserve_of_map f forceFree_queued_eq rfl rfl hInv hge hle
  | setBufferCount n =>
      show ((q.setBufferCount n).2).Inv ∧ ((q.setBufferCount n).2).queuedGE f ∧
        f ≤ ((q.setBufferCount n).2).mFrameCounter
      unfold BufferQueue.setBufferCount
      split_ifs <;>
        first
          | exact preserve_of_unchanged f rfl rfl hInv hge hle
          | exact preserve_of_map f emptied_queued_eq rfl rfl hInv hge hle
  | dequeueBuffer async w h fo u =>
      show ((q.dequeueBuffer async w h fo u).2).Inv ∧
        ((q.dequeueBuffer async w h fo u).2).queuedGE f ∧
        f ≤ ((q.dequeueBuffer async w h fo u).2).mFrameCounter
      unfold BufferQueue.dequeueBuffer
      split_ifs <;>
        first
          | exact preserve_of_unchanged f rfl rfl hInv hge hle
          | (dsimp only
             split <;>
              first
                | exact preserve_of_unchanged f rfl rfl hInv hge hle
                | exact preserve_of_set f (by simp) rfl rfl hInv hge hle)
  | requestBuffer slot =>
      show ((q.requestBuffer slot).2.2).Inv ∧ ((q.requestBuffer slot).2.2).queuedGE f ∧
        f ≤ ((q.requestBuffer slot).2.2).mFrameCounter
      unfold BufferQueue.requestBuffer
      dsimp only
      split_ifs with h1 h2 h3 <;>
        first
          | exact preserve_of_unchanged f rfl rfl hInv hge hle
          | exact preserve_of_set f
              (by simp at h3; simp [h3]) rfl rfl hInv hge hle
  | queueBuffer slot fe =>
      show ((q.queueBuffer slot fe).2.2).Inv ∧ ((q.queueBuffer slot fe).2.2).queuedGE f ∧
        f ≤ ((q.queueBuffer slot fe).2.2).mFrameCounter
      unfold BufferQueue.queueBuffer
      dsimp only
      split_ifs <;>
        first
          | exact preserve_of_unchanged f rfl rfl hInv hge hle
          | exact preserve_of_queue f rfl rfl rfl hInv hge hle
  | cancelBuffer slot fe =>
      show ((q.cancelBuffer slot fe).2).Inv ∧ ((q.cancelBuffer slot fe).2).queuedGE f ∧
        f ≤ ((q.cancelBuffer slot fe).2).mFrameCounter
      unfold BufferQueue.cancelBuffer
      dsimp only
      split_ifs <;>
        first
          | exact preserve_of_unchanged f rfl rfl hInv hge hle
          | exact preserve_of_set f (by simp) rfl rfl hInv hge hle
  | acquireBuffer =>
      show (match q.acquireBuffer with
        | some r => r.2.2.2
        | none => q).Inv ∧ (match q.acquireBuffer with
        | some r => r.2.2.2
        | none => q).queuedGE f ∧ f ≤ (match q.acquireBuffer with
        | some r => r.2.2.2
        | none => q).mFrameCounter
      cases hacq : q.acquireBuffer with
      | none => exact preserve_of_unchanged f rfl rfl hInv hge hle
      | some r =>
          obtain ⟨i, g, fe, q'⟩ := r
          obtain ⟨_, _, hs, hc⟩ := acquireBuffer_some q i g fe q' hacq
          exact preserve_of_set f (by simp) hs hc hInv hge hle
  | releaseBuffer slot fe =>
      show ((q.releaseBuffer slot fe).2).Inv ∧ ((q.releaseBuffer slot fe).2).queuedGE f ∧
        f ≤ ((q.releaseBuffer slot fe).2).mFrameCounter
      unfold BufferQueue.releaseBuffer
      dsimp only
      split_ifs <;>
        first
          | exact preserve_of_unchanged f rfl rfl hInv hge hle
          | exact preserve_of_set f (by simp) rfl rfl hInv hge hle

theorem run_preserve (ops : List BQOp) : ∀ (q : BufferQueue) (f : Nat),
    q.Inv → q.queuedGE f → f ≤ q.mFrameCounter →
    (runBQ q ops).Inv ∧ (runBQ q ops).queuedGE f ∧ f ≤ (runBQ q ops).mFrameCounter := by
  induction ops with
  | nil => exact fun q f hInv hge hle => ⟨hInv, hge, hle⟩
  | cons op ops ih =>
      intro q f hInv hge hle
      obtain ⟨h1, h2, h3⟩ := step_preserve q op f hInv hge hle
      exact ih (op.apply q) f h1 h2 h3

theorem init_Inv : BufferQueue.init.Inv := by
  intro s hs hq
  rw [List.eq_of_mem_replicate hs] at hq
  exact absurd hq (by decide)

theorem acquire_establishes (q : BufferQueue) (i f : Nat) (fe : Option FenceState)
    (q' : BufferQueue) (hInv : q.Inv)
    (h : q.acquireBuffer = some (i, f, fe, q')) :
    q'.Inv ∧ q'.queuedGE f ∧ f ≤ q'.mFrameCounter := by
  obtain ⟨_, hm, hs, hc⟩ := acquireBuffer_some q i f fe q' h
  obtain ⟨t, ht, htq, htf⟩ := oldestQueuedAux_mem q.slots 0 i f hm
  have hle : f ≤ q.mFrameCounter := htf ▸ hInv t ht htq
  have hge : q.queuedGE f := fun s hs' hq' => oldestQueuedAux_min q.slots 0 i f hm s hs' hq'
  exact preserve_of_set f (by simp) hs hc hInv hge hle

/-- C1. Successive successful `acquireBuffer` calls return slots in
non-decreasing frame-number order, for every operation sequence: from any
state reached from the initial queue by a trace of producer and consumer
operations, if one acquisition returns frame number `f₁` and, after any
further trace of operations, a second acquisition returns `f₂`, then
`f₁ ≤ f₂`. `acquireBuffer` selects the oldest `QUEUED` slot by frame
stamp and never consults fences, so the order is independent of fence
signal timing. -/
theorem acquireBuffer_fifo (ops0 ops1 : List BQOp) (i1 f1 : Nat)
    (fe1 : Option FenceState) (q1 : BufferQueue) (i2 f2 : Nat)
    (fe2 : Option FenceState) (q2 : BufferQueue)
    (h1 : (runBQ BufferQueue.init ops0).acquireBuffer = some (i1, f1, fe1, q1))
    (h2 : (runBQ q1 ops1).acquireBuffer = some (i2, f2, fe2, q2)) :
    f1 ≤ f2 := by
  have h0 := run_preserve ops0 BufferQueue.init 0 init_Inv
    (fun s _ _ => Nat.zero_le _) (Nat.zero_le _)
  have hq1 := acquire_establishes _ i1 f1 fe1 q1 h0.1 h1
  have hq2 := run_preserve ops1 q1 f1 hq1.1 hq1.2.1 hq1.2.2
  obtain ⟨_, hm2, _, _⟩ := acquireBuffer_some _ i2 f2 fe2 q2 h2
  obtain ⟨t, ht, htq, htf⟩ := oldestQueuedAux_mem _ 0 i2 f2 hm2
  exact htf ▸ hq2.2.1 t ht htq

/-- C1 witness: in the concrete scenario `opsA`/`opsB` the first
acquisition returns frame 1 and the second frame 2, in order. -/
theorem acquireBuffer_fifo_witness :
    acq1 = some (0, 1, some (.signaledAt 5), q1c) ∧
      acq2 = some (1, 2, some .pending, q2c) ∧ (1 : Nat) ≤ 2 :=
  ⟨by decide, by decide,
    acquireBuffer_fifo opsA opsB 0 1 (some (.signaledAt 5)) q1c 1 2 (some .pending) q2c
      (by decide) (by decide)⟩

end BufferQueueModel

/-! ## SurfaceControl theorems -/

namespace SurfaceControlModel

theorem run_eq_dispatch (sc : SurfaceControl) (req : SCRequest) :
    sc.run req = sc.dispatch req := by
  cases req <;> rfl

theorem dispatch_invalid (sc : SurfaceControl) (req : SCRequest)
    (h : sc.mSurface = none ∨ sc.mClient = none) : sc.dispatch req = (NO_INIT, []) := by
  have hval : sc.validate = NO_INIT := by
    unfold SurfaceControl.validate
    rcases h with h | h <;> simp [h]
  unfold SurfaceControl.dispatch
  rw [hval]
  norm_num [NO_INIT]

theorem dispatch_valid (sc : SurfaceControl) (req : SCRequest) (hdl : Nat)
    (client : SCClient) (hs : sc.mSurface = some hdl) (hc : sc.mClient = some client) :
    sc.dispatch req = (client req, [req]) := by
  have hval : sc.validate = NO_ERROR := by
    unfold SurfaceControl.validate
    simp [hs, hc]
  unfold SurfaceControl.dispatch
  rw [hval]
  norm_num [NO_ERROR, SurfaceControl.clientCall, hc]

/-- C10. Every state-changing `SurfaceControl` operation (setLayerStack,
setLayer, setPosition, setSize, hide, show, setFlags,
setTransparentRegionHint, setAlpha, setMatrix, setCrop) first validates
the control: with a null surface handle or client reference — as after
`destroy`/`clear`, which null both — it returns `NO_INIT` and forwards no
call to the client; otherwise it forwards exactly one call to the client
and returns that call's result. -/
theorem surfaceControl_validate_guard (sc : SurfaceControl) (req : SCRequest) :
    (sc.mSurface = none ∨ sc.mClient = none → sc.run req = (NO_INIT, [])) ∧
    (∀ (hdl : Nat) (client : SCClient), sc.mSurface = some hdl →
        sc.mClient = some client → sc.run req = (client req, [req])) ∧
    (sc.destroy.run req = (NO_INIT, [])) := by
  refine ⟨fun h => ?_, fun hdl client hs hc => ?_, ?_⟩
  · rw [run_eq_dispatch]
    exact dispatch_invalid sc req h
  · rw [run_eq_dispatch]
    exact dispatch_valid sc req hdl client hs hc
  · rw [run_eq_dispatch]
    exact dispatch_invalid sc.destroy req (Or.inl rfl)

/-- C10 witness: a live control forwards one call and returns the
client's status; a destroyed control fails with `NO_INIT` and forwards
nothing. -/
theorem surfaceControl_validate_guard_witness :
    (SurfaceControl.mk (some fun _ => 7) (some 1)).run .hide = (7, [SCRequest.hide]) ∧
      (SurfaceControl.mk none none).run .hide = (NO_INIT, []) :=
  ⟨(surfaceControl_validate_guard (SurfaceControl.mk (some fun _ => 7) (some 1)) .hide).2.1
      1 (fun _ => 7) rfl rfl,
    (surfaceControl_validate_guard (SurfaceControl.mk none none) .hide).1 (Or.inl rfl)⟩

end SurfaceControlModel

end FrameworksNative
